import Mathlib

/-!
Verification of the streaming TTS pipeline in `src-tauri/src/tts.rs`.

The development shallowly embeds the pipeline: the generation worker loop of
`init_audio_player`, the queueing entry point `speak_sentence`, the kokoro
HTTP adapter with piper fallback `generate_kokoro_audio_fast`, the stop
machinery of `clear_audio_queue`, the blocking `speak` / `stop_speaking`
path, and the temp-file path construction of the individual engines.
External effects (subprocesses, HTTP, the clock, process ids) are passed in
as oracle parameters; the control flow is transcribed from the source.
-/

namespace OpencodeTalk

/-- A queued speech request: struct `GenerationTask` in tts.rs (lines 28-34).
The speed field is an `f32` in the source; it is carried along but never
computed with in the worker loop. -/
structure GenerationTask where
  text : String
  voice : String
  speed : Float
  engine : String

/-- The two synthesis backends reachable from the streaming worker loop. -/
inductive StreamBackend
  | piper
  | kokoroFast
deriving DecidableEq

/-- Engine dispatch inside the worker loop (tts.rs lines 82-86): "piper" goes
to `generate_piper_audio`, "kokoro" to `generate_kokoro_audio_fast`, and any
other engine string falls through to `generate_kokoro_audio_fast`. -/
def streamDispatch (engine : String) : StreamBackend :=
  if engine = "piper" then .piper
  else if engine = "kokoro" then .kokoroFast
  else .kokoroFast

/-- The generation step of one worker iteration: dispatch on the task's
engine string and run the chosen backend. `backendRun` is the oracle giving
the outcome (artifact path or error message) of each backend invocation. -/
def workerGenerate (backendRun : StreamBackend → GenerationTask → Except String String)
    (t : GenerationTask) : Except String String :=
  backendRun (streamDispatch t.engine) t

/-- Observable actions of the worker loop (tts.rs lines 71-116).
`pendingInsert`/`pendingErase` are the two mutations of the
`PENDING_TEMP_FILES` set expressible in the code's vocabulary; which of them
the loop actually performs is read off the source. `played` is the hand-off
of an artifact to playback (line 100), `fileRemoved` the `remove_file` calls
(lines 92 and 107), `genFailed` the error log of line 113, `discarded` the
silent `continue` of line 78. -/
inductive WEvent
  | discarded (text : String)
  | genFailed (text : String) (msg : String)
  | played (path : String)
  | fileRemoved (path : String)
  | pendingErase (path : String)
  | pendingInsert (path : String)
deriving DecidableEq

/-- One iteration of the worker loop body (tts.rs lines 71-116) on a task
received from the queue: check the stop flag before generating (line 77),
generate, re-check the stop flag (line 91) — deleting the artifact unplayed
if it is set — otherwise play, then delete the artifact and remove it from
the pending set (lines 107-110). -/
def processTask (backendRun : StreamBackend → GenerationTask → Except String String)
    (stopBefore stopAfter : Bool) (t : GenerationTask) : List WEvent :=
  if stopBefore then [.discarded t.text]
  else
    match workerGenerate backendRun t with
    | .ok path =>
        if stopAfter then [.fileRemoved path, .pendingErase path]
        else [.played path, .fileRemoved path, .pendingErase path]
    | .error e => [.genFailed t.text e]

/-- The sequential drain of the generation queue (tokio task spawned in
`init_audio_player`, tts.rs lines 54-119): tasks are received strictly in
FIFO channel order and each is fully processed before the next is received.
Each entry pairs a task with the stop-flag values observed at the two check
points of its iteration. -/
def runWorker (backendRun : StreamBackend → GenerationTask → Except String String) :
    List (GenerationTask × Bool × Bool) → List WEvent
  | [] => []
  | (t, sb, sa) :: rest => processTask backendRun sb sa t ++ runWorker backendRun rest

/-- The playback hand-offs of a worker trace, in order. -/
def playedPaths (es : List WEvent) : List String :=
  es.filterMap fun e =>
    match e with
    | .played p => some p
    | _ => none

/-- Recognizer for registration events on `PENDING_TEMP_FILES`. -/
def isPendingInsert : WEvent → Bool
  | .pendingInsert _ => true
  | _ => false

/-- Effect of one worker event on the `PENDING_TEMP_FILES` set
(a `HashSet<String>`, tts.rs lines 25-26). -/
def stepPending (s : Finset String) (e : WEvent) : Finset String :=
  match e with
  | .pendingInsert p => insert p s
  | .pendingErase p => s.erase p
  | _ => s

/-- All intermediate values of the `PENDING_TEMP_FILES` set along a worker
trace, starting from the initial empty set of line 26. -/
def pendingStates (es : List WEvent) : List (Finset String) :=
  List.scanl stepPending ∅ es

/-- State of the `GENERATION_QUEUE` global as seen by `speak_sentence`:
whether `init_audio_player` stored a sender (tts.rs lines 43-46), whether
the receiving side of the channel is gone, and the buffered tasks. -/
structure GenQueueState where
  initialized : Bool
  closed : Bool
  buffer : List GenerationTask

/-- Capacity of the bounded generation channel (tts.rs line 39). -/
def generationQueueCapacity : Nat := 64

/-- The queueing entry point `speak_sentence` (tts.rs lines 209-228): error
if no sender was ever stored, error if the channel is closed (the `send`
fails), otherwise the task is appended at the tail of the channel buffer.
Backpressure when the buffer is full suspends the sender until space is
available; the completed send always appends, never drops or reorders. -/
def speak_sentence (q : GenQueueState) (t : GenerationTask) : Except String GenQueueState :=
  if q.initialized then
    if q.closed then .error "Failed to queue task: channel closed"
    else .ok { q with buffer := q.buffer ++ [t] }
  else .error "Audio player not initialized"

/-- The kokoro server's HTTP response as far as tts.rs inspects it:
whether the status is a success, and the status text used in the log line. -/
structure KokoroHttpResponse where
  statusSuccess : Bool
  statusText : String
deriving DecidableEq

/-- `generate_kokoro_audio_fast` (tts.rs lines 292-332), with its external
effects as oracles: `clientBuild` the outcome of building the HTTP client,
`resp` the outcome of the POST to the kokoro server, `parsedFileField` the
outcome of JSON-decoding the body and reading its "file" field, and
`piperFallback` the outcome `generate_piper_audio` would produce. Returns
the result together with the `eprintln!` log lines emitted. On a transport
error or non-success status the function logs and returns the piper
fallback's result (lines 309-319). -/
def generate_kokoro_audio_fast
    (clientBuild : Except String Unit)
    (resp : Except String KokoroHttpResponse)
    (parsedFileField : Except String (Option String))
    (piperFallback : Except String String) :
    Except String String × List String :=
  match clientBuild with
  | .error e => (.error ("Failed to create HTTP client: " ++ e), [])
  | .ok _ =>
    match resp with
    | .ok r =>
      if r.statusSuccess then
        match parsedFileField with
        | .error e => (.error ("Failed to parse Kokoro response: " ++ e), [])
        | .ok none => (.error "Missing file path in response", [])
        | .ok (some p) => (.ok p, [])
      else
        (piperFallback, ["Kokoro server returned " ++ r.statusText ++ ", falling back to Piper"])
    | .error e =>
      (piperFallback, ["Kokoro server unavailable (" ++ e ++ "), falling back to Piper"])

/-- Whether the primary kokoro backend failed: transport error or a
non-success HTTP status. -/
def primaryBackendFailed : Except String KokoroHttpResponse → Bool
  | .ok r => !r.statusSuccess
  | .error _ => true

/-- State of the stop coordination: the value held by the `STOP_SIGNAL`
watch channel, plus (as observers of the run, not program variables)
whether the generation stage and the playback stage have each observed the
stop and acted on it since it was last requested. -/
structure StopState where
  stop : Bool
  genActed : Bool
  playActed : Bool
deriving DecidableEq

/-- Atomic events on the stop channel. `requestStop` is the `send(true)` of
`clear_audio_queue` (tts.rs line 418); `delayedReset` is the `send(false)`
performed by the task it spawns (lines 434-440); `genObserve` is the worker
loop reading a true flag and draining (lines 58-67 and 77-79 and 91-97);
`playObserve` is the playback loop reading a true flag and killing the
player (lines 148-160). -/
inductive StopEvent
  | requestStop
  | delayedReset
  | genObserve
  | playObserve
deriving DecidableEq

/-- The fixed sleep, in milliseconds, after which `clear_audio_queue`'s
spawned task resets the stop flag (tts.rs line 435). -/
def resetDelayMs : Nat := 100

/-- Semantics of one stop-channel event. The reset performed by the spawned
task is unconditional: it sends false whatever the stages have or have not
observed. A stage that reads a true flag has thereby observed and acted. -/
def stepStop (s : StopState) : StopEvent → StopState
  | .requestStop => { stop := true, genActed := false, playActed := false }
  | .delayedReset => { s with stop := false }
  | .genObserve => if s.stop then { s with genActed := true } else s
  | .playObserve => if s.stop then { s with playActed := true } else s

/-- Run of a sequence of stop-channel events. -/
def runStop (s : StopState) (es : List StopEvent) : StopState :=
  es.foldl stepStop s

/-- The operations `clear_audio_queue` itself performs on the stop channel
(tts.rs lines 413-443): `send(true)`, then — via a spawned task whose only
trigger is the elapse of `resetDelayMs` — `send(false)`. Because the reset
is purely time-based, the schedule in which neither stage runs in between
is a legal schedule of the program. -/
def clear_audio_queue_stopOps : List StopEvent := [.requestStop, .delayedReset]

/-- The global state touched by the blocking speech path: the generation
queue (`GENERATION_QUEUE` buffer, `none` when uninitialized), the stop flag
held by `STOP_SIGNAL`, the tracked current playback process
(`CURRENT_PROCESS`), and the tracked player PIDs (`SPAWNED_PIDS`). -/
structure TtsGlobals where
  generationQueue : Option (List GenerationTask)
  stopFlag : Bool
  currentProcess : Option Nat
  spawnedPids : Finset Nat

/-- `stop_speaking` (tts.rs lines 460-489): kill and drop the tracked
current process, kill every tracked PID and clear the PID set. It does not
touch `GENERATION_QUEUE` and does not send on `STOP_SIGNAL`. -/
def stop_speaking (s : TtsGlobals) : TtsGlobals :=
  { s with currentProcess := none, spawnedPids := ∅ }

/-- The successive operations a blocking per-engine speak function performs
before returning, read off tts.rs lines 492-735. -/
inductive BlockStep
  | checkInstalled
  | synthesizeToTempFile
  | writeScript
  | runPython
  | removeScriptFile
  | spawnSay
  | spawnAfplay
  | waitPlaybackCompletion
  | removeTempFile
deriving DecidableEq

/-- Success-path step sequence of `speak_macos` (tts.rs lines 492-517):
spawn `say`, wait for it to complete. -/
def speak_macos_steps : List BlockStep :=
  [.spawnSay, .waitPlaybackCompletion]

/-- Success-path step sequence of `speak_piper` (tts.rs lines 520-584). -/
def speak_piper_steps : List BlockStep :=
  [.checkInstalled, .synthesizeToTempFile, .spawnAfplay, .waitPlaybackCompletion,
   .removeTempFile]

/-- Success-path step sequence of `speak_edge` (tts.rs lines 587-647). -/
def speak_edge_steps : List BlockStep :=
  [.synthesizeToTempFile, .spawnAfplay, .waitPlaybackCompletion, .removeTempFile]

/-- Success-path step sequence of `speak_kokoro` (tts.rs lines 650-735). -/
def speak_kokoro_steps : List BlockStep :=
  [.writeScript, .runPython, .removeScriptFile, .spawnAfplay, .waitPlaybackCompletion,
   .removeTempFile]

/-- The blocking `speak` entry point (tts.rs lines 446-457): it first runs
`stop_speaking`, then dispatches on the engine string, returning the step
sequence the chosen engine performs, or the unknown-engine error. -/
def speak (s : TtsGlobals) (engine : String) :
    TtsGlobals × Except String (List BlockStep) :=
  let s1 := stop_speaking s
  if engine = "macos" then (s1, .ok speak_macos_steps)
  else if engine = "piper" then (s1, .ok speak_piper_steps)
  else if engine = "kokoro" then (s1, .ok speak_kokoro_steps)
  else if engine = "edge" then (s1, .ok speak_edge_steps)
  else (s1, .error ("Unknown TTS engine: " ++ engine))

/-- Decimal rendering of a natural number, as the display formatting used by
the Rust `format!` calls produces for `u32` and `u128` values. -/
def decimalString (n : Nat) : String :=
  if n = 0 then "0"
  else String.mk (((Nat.digits 10 n).map Nat.digitChar).reverse)

/-- Temp path built by `generate_piper_audio` (tts.rs lines 233-239):
process id and nanosecond timestamp are both embedded. -/
def generate_piper_audio_tempFile (pid nanos : Nat) : String :=
  "/tmp/opencode-talk-piper-" ++ decimalString pid ++ "-" ++ decimalString nanos ++ ".wav"

/-- Temp path built by `speak_piper` (tts.rs line 533). The clock reading
available at the request is a parameter of the request context, but the
source interpolates only the process id. -/
def speak_piper_tempFile (pid _nanos : Nat) : String :=
  "/tmp/opencode-talk-" ++ decimalString pid ++ ".wav"

/-- Temp path built by `speak_edge` (tts.rs line 589); only the process id
is interpolated. -/
def speak_edge_tempFile (pid _nanos : Nat) : String :=
  "/tmp/opencode-talk-" ++ decimalString pid ++ ".mp3"

/-- Temp path built by `speak_kokoro` (tts.rs line 652); only the process id
is interpolated. -/
def speak_kokoro_tempFile (pid _nanos : Nat) : String :=
  "/tmp/opencode-talk-" ++ decimalString pid ++ ".wav"

/-- The trace one successfully generated and played task leaves behind
(tts.rs lines 100-110): the artifact is handed to playback, then the file
is removed and dropped from the pending set. -/
def successTrace (produced : GenerationTask → String) (t : GenerationTask) : List WEvent :=
  [.played (produced t), .fileRemoved (produced t), .pendingErase (produced t)]

/-- A concrete task used to instantiate theorems on explicit inputs. -/
def sampleTask : GenerationTask :=
  { text := "hello", voice := "af_bella", speed := 1.0, engine := "piper" }

/-- A second concrete task. -/
def sampleTask2 : GenerationTask :=
  { text := "world", voice := "af_bella", speed := 1.0, engine := "kokoro" }

/-- A third concrete task. -/
def sampleTask3 : GenerationTask :=
  { text := "third", voice := "af_bella", speed := 1.0, engine := "edge" }

/-- A backend oracle that always succeeds, naming the artifact after the
task text. -/
def backendOk : StreamBackend → GenerationTask → Except String String :=
  fun _ t => .ok ("/tmp/" ++ t.text ++ ".wav")

/-- A backend oracle that always fails. -/
def backendFail : StreamBackend → GenerationTask → Except String String :=
  fun _ _ => .error "synthesis failed"

/-- A concrete global state with one queued streaming task, no stop
requested, a playing process and one tracked PID. -/
def busyGlobals : TtsGlobals :=
  { generationQueue := some [sampleTask2], stopFlag := false,
    currentProcess := some 42, spawnedPids := {7} }

/-- One worker iteration performs no registration on the pending set: none
of its four branches emits a `pendingInsert`. -/
theorem processTask_no_register
    (backendRun : StreamBackend → GenerationTask → Except String String)
    (sb sa : Bool) (t : GenerationTask) :
    (processTask backendRun sb sa t).countP isPendingInsert = 0 := by
  unfold processTask
  split
  · rfl
  · cases h : workerGenerate backendRun t with
    | ok path =>
      by_cases hsa : sa = true <;> simp [hsa, List.countP_cons, isPendingInsert]
    | error e => rfl

/-- No worker run ever registers a path in the pending set. -/
theorem runWorker_no_register
    (backendRun : StreamBackend → GenerationTask → Except String String)
    (entries : List (GenerationTask × Bool × Bool)) :
    (runWorker backendRun entries).countP isPendingInsert = 0 := by
  induction entries with
  | nil => rfl
  | cons e rest ih =>
    obtain ⟨t, sb, sa⟩ := e
    simp only [runWorker, List.countP_append, ih,
      processTask_no_register backendRun sb sa t]

/-- A trace without registrations keeps the pending set empty at every
intermediate point when it starts empty. -/
theorem scanl_stepPending_empty (es : List WEvent)
    (h : es.countP isPendingInsert = 0) :
    List.scanl stepPending ∅ es = List.replicate (es.length + 1) ∅ := by
  induction es with
  | nil => rfl
  | cons e t ih =>
    rw [List.countP_cons] at h
    have he : isPendingInsert e = false := by
      by_cases hb : isPendingInsert e = true
      · simp [hb] at h
      · simpa using hb
    have hstep : stepPending ∅ e = ∅ := by
      cases e with
      | pendingInsert p => simp [isPendingInsert] at he
      | pendingErase p => exact Finset.erase_empty p
      | discarded a => rfl
      | genFailed a b => rfl
      | played a => rfl
      | fileRemoved a => rfl
    have ht : t.countP isPendingInsert = 0 := by simpa [he] using h
    rw [List.scanl_cons, hstep, ih ht]
    simp [List.replicate_succ]

/-- C1: the claim asserts that every artifact path the engine adapter
returns to the worker is in `PENDING_TEMP_FILES` from the moment the
artifact exists until it is deleted. The code violates this: no code path
ever inserts into `PENDING_TEMP_FILES` (the worker only removes, lines
94-95 and 109-110, and `clear_audio_queue` only drains), so along every
possible worker run — every backend oracle and every stop schedule — the
registration count is zero and the pending set is empty at every single
intermediate instant, including the whole interval in which a successfully
generated artifact exists on disk. -/
theorem pending_registry_never_populated :
    ∀ (backendRun : StreamBackend → GenerationTask → Except String String)
      (entries : List (GenerationTask × Bool × Bool)),
      (runWorker backendRun entries).countP isPendingInsert = 0 ∧
      pendingStates (runWorker backendRun entries) =
        List.replicate ((runWorker backendRun entries).length + 1) ∅ :=
  fun backendRun entries =>
    ⟨runWorker_no_register backendRun entries,
     scanl_stepPending_empty _ (runWorker_no_register backendRun entries)⟩

/-- C2 counterexample: running exactly the stop-channel operations that
`clear_audio_queue` itself performs, from the idle state, in the schedule
where neither stage gets to run inside the 100ms window — a legal schedule,
since the reset is triggered purely by the elapse of the delay — ends with
the level cleared while neither the generation stage nor the playback stage
has observed and acted on the stop. -/
theorem delay_reset_clears_before_observation :
    runStop ⟨false, false, false⟩ clear_audio_queue_stopOps =
      ⟨false, false, false⟩ ∧ resetDelayMs = 100 :=
  ⟨rfl, rfl⟩

/-- C2 (amended): after stop is requested, `clear_audio_queue` resets the
cancellation level to false via a spawned task after a fixed 100ms delay,
unconditionally — whatever the stages have or have not observed, the reset
step clears the level and changes nothing else. -/
theorem delay_reset_unconditional :
    (∀ s : StopState, stepStop s .delayedReset = { s with stop := false }) ∧
    resetDelayMs = 100 :=
  ⟨fun _ => rfl, rfl⟩

/-- C4: while the cancellation level is true the worker issues no playback:
a request observed with the flag set at the top of the iteration is
discarded without invoking any backend, and when the flag became true
during generation the produced artifact is removed immediately and its
trace contains no playback hand-off. -/
theorem stop_flag_blocks_playback
    (backendRun : StreamBackend → GenerationTask → Except String String)
    (t : GenerationTask) (p : String) :
    (∀ sa : Bool, processTask backendRun true sa t = [.discarded t.text]) ∧
    (workerGenerate backendRun t = .ok p →
      processTask backendRun false true t = [.fileRemoved p, .pendingErase p] ∧
      WEvent.played p ∉ processTask backendRun false true t) := by
  constructor
  · intro sa; rfl
  · intro h
    refine ⟨by simp [processTask, h], ?_⟩
    simp [processTask, h]

/-- Witness for C4 at a concrete backend, task and path. -/
theorem stop_flag_blocks_playback_witness :
    processTask backendOk false true sampleTask =
      [.fileRemoved ("/tmp/" ++ "hello" ++ ".wav"),
       .pendingErase ("/tmp/" ++ "hello" ++ ".wav")] ∧
    WEvent.played ("/tmp/" ++ "hello" ++ ".wav") ∉
      processTask backendOk false true sampleTask :=
  (stop_flag_blocks_playback backendOk sampleTask ("/tmp/" ++ "hello" ++ ".wav")).2 rfl

/-- C5: when the engine adapter invocation for a request fails, the worker
logs the failure and the run continues with the remaining queued requests
exactly as it would have processed them on their own — a single adapter
failure never halts the pipeline. -/
theorem adapter_failure_does_not_halt
    (backendRun : StreamBackend → GenerationTask → Except String String)
    (t : GenerationTask) (msg : String)
    (rest : List (GenerationTask × Bool × Bool))
    (h : workerGenerate backendRun t = .error msg) :
    runWorker backendRun ((t, false, false) :: rest) =
      WEvent.genFailed t.text msg :: runWorker backendRun rest := by
  simp [runWorker, processTask, h]

/-- Witness for C5 at a concrete failing backend and two queued tasks. -/
theorem adapter_failure_does_not_halt_witness :
    runWorker backendFail [(sampleTask, false, false), (sampleTask2, false, false)] =
      WEvent.genFailed sampleTask.text "synthesis failed" ::
        runWorker backendFail [(sampleTask2, false, false)] :=
  adapter_failure_does_not_halt backendFail sampleTask "synthesis failed" _ rfl

/-- C7: `speak_sentence` succeeds exactly when the pipeline was initialized
and the channel is not closed; on success the request is appended at the
tail of the bounded queue, nothing is dropped or reordered; the queue
capacity is 64. -/
theorem speak_sentence_accepts_iff (q : GenQueueState) (t : GenerationTask) :
    ((∃ q2, speak_sentence q t = .ok q2) ↔
      (q.initialized = true ∧ q.closed = false)) ∧
    (∀ q2, speak_sentence q t = .ok q2 →
      q2.buffer = q.buffer ++ [t] ∧ q2.initialized = q.initialized ∧
        q2.closed = q.closed) ∧
    generationQueueCapacity = 64 := by
  refine ⟨⟨?_, ?_⟩, ?_, rfl⟩
  · rintro ⟨q2, hq⟩
    by_cases h1 : q.initialized = true
    · by_cases h2 : q.closed = true
      · simp [speak_sentence, h1, h2] at hq
      · exact ⟨h1, by simpa using h2⟩
    · simp [speak_sentence, h1] at hq
  · rintro ⟨h1, h2⟩
    exact ⟨{ q with buffer := q.buffer ++ [t] }, by simp [speak_sentence, h1, h2]⟩
  · intro q2 hq
    by_cases h1 : q.initialized = true
    · by_cases h2 : q.closed = true
      · simp [speak_sentence, h1, h2] at hq
      · have he : speak_sentence q t = .ok { q with buffer := q.buffer ++ [t] } := by
          simp [speak_sentence, h1, h2]
        rw [he] at hq
        injection hq with h3
        subst h3
        exact ⟨rfl, rfl, rfl⟩
    · simp [speak_sentence, h1] at hq

/-- Witness for C7 at a concrete initialized, open, empty queue. -/
theorem speak_sentence_accepts_iff_witness :
    (GenQueueState.mk true false [sampleTask]).buffer =
        (GenQueueState.mk true false []).buffer ++ [sampleTask] ∧
    (GenQueueState.mk true false [sampleTask]).initialized =
        (GenQueueState.mk true false []).initialized ∧
    (GenQueueState.mk true false [sampleTask]).closed =
        (GenQueueState.mk true false []).closed :=
  (speak_sentence_accepts_iff (GenQueueState.mk true false []) sampleTask).2.1
    (GenQueueState.mk true false [sampleTask]) rfl

/-- C8: when the primary kokoro backend fails — transport error or
non-success status — `generate_kokoro_audio_fast` returns exactly what the
piper fallback produces (so a succeeding fallback still yields an
artifact), and the primary failure is logged rather than surfaced: the
emitted log is nonempty and the returned value carries no error from the
primary. -/
theorem kokoro_falls_back_to_piper
    (resp : Except String KokoroHttpResponse)
    (parsedFileField : Except String (Option String))
    (piperFallback : Except String String) (p : String)
    (hfail : primaryBackendFailed resp = true)
    (hp : piperFallback = .ok p) :
    (generate_kokoro_audio_fast (.ok ()) resp parsedFileField piperFallback).1 =
      .ok p ∧
    (generate_kokoro_audio_fast (.ok ()) resp parsedFileField piperFallback).2 ≠
      [] := by
  cases resp with
  | error e => subst hp; exact ⟨rfl, by simp [generate_kokoro_audio_fast]⟩
  | ok r =>
    have hr : r.statusSuccess = false := by
      simpa [primaryBackendFailed] using hfail
    subst hp
    constructor <;> simp [generate_kokoro_audio_fast, hr]

/-- Witness for C8: unreachable primary, succeeding piper fallback. -/
theorem kokoro_falls_back_to_piper_witness :
    (generate_kokoro_audio_fast (.ok ()) (.error "connection refused")
        (.ok none) (.ok "/tmp/fallback.wav")).1 = .ok "/tmp/fallback.wav" ∧
    (generate_kokoro_audio_fast (.ok ()) (.error "connection refused")
        (.ok none) (.ok "/tmp/fallback.wav")).2 ≠ [] :=
  kokoro_falls_back_to_piper (.error "connection refused") (.ok none)
    (.ok "/tmp/fallback.wav") "/tmp/fallback.wav" rfl rfl

/-- C9 counterexample: from a state with one queued streaming request and a
playing process, the blocking `speak` leaves the streaming generation queue
exactly as it was — the queued request is still there, the queue was not
cleared, and no stop was signalled — so `speak` does not stop already
queued streaming work. -/
theorem speak_leaves_streaming_work_running :
    (speak busyGlobals "piper").1.generationQueue = some [sampleTask2] ∧
    (speak busyGlobals "piper").1.generationQueue ≠ some [] ∧
    (speak busyGlobals "piper").1.stopFlag = false := by
  refine ⟨rfl, ?_, rfl⟩
  simp [speak, stop_speaking, busyGlobals]

/-- C9 (amended): the blocking `speak` first kills the currently playing
process and all tracked player PIDs, but leaves the streaming generation
queue and the stop flag untouched; for each known engine it then runs the
engine's step sequence, which waits for playback to complete before the
call returns. -/
theorem speak_stops_playback_only_then_plays (s : TtsGlobals) (engine : String)
    (h : engine = "macos" ∨ engine = "piper" ∨ engine = "kokoro" ∨
      engine = "edge") :
    (speak s engine).1.currentProcess = none ∧
    (speak s engine).1.spawnedPids = ∅ ∧
    (speak s engine).1.generationQueue = s.generationQueue ∧
    (speak s engine).1.stopFlag = s.stopFlag ∧
    ∃ steps, (speak s engine).2 = .ok steps ∧
      BlockStep.waitPlaybackCompletion ∈ steps := by
  rcases h with rfl | rfl | rfl | rfl <;>
    exact ⟨rfl, rfl, rfl, rfl, ⟨_, rfl, by decide⟩⟩

/-- Witness for the amended C9 at a concrete busy state and engine. -/
theorem speak_stops_playback_only_then_plays_witness :
    (speak busyGlobals "macos").1.currentProcess = none ∧
    (speak busyGlobals "macos").1.spawnedPids = ∅ ∧
    (speak busyGlobals "macos").1.generationQueue = busyGlobals.generationQueue ∧
    (speak busyGlobals "macos").1.stopFlag = busyGlobals.stopFlag ∧
    ∃ steps, (speak busyGlobals "macos").2 = .ok steps ∧
      BlockStep.waitPlaybackCompletion ∈ steps :=
  speak_stops_playback_only_then_plays busyGlobals "macos" (Or.inl rfl)

/-- C10: the streaming worker dispatches every engine id other than "piper"
to the kokoro backend — unknown ids are silently defaulted, never rejected
— whereas the blocking `speak` returns the unknown-engine error for every
id outside the four known ones. -/
theorem streaming_defaults_blocking_rejects :
    (∀ e : String, e ≠ "piper" → streamDispatch e = .kokoroFast) ∧
    (∀ (s : TtsGlobals) (e : String),
      e ∉ (["macos", "piper", "kokoro", "edge"] : List String) →
      (speak s e).2 = .error ("Unknown TTS engine: " ++ e)) := by
  constructor
  · intro e he
    by_cases hk : e = "kokoro" <;> simp [streamDispatch, he, hk]
  · intro s e he
    simp only [List.mem_cons, List.not_mem_nil, or_false, not_or] at he
    obtain ⟨h1, h2, h3, h4⟩ := he
    simp [speak, h1, h2, h3, h4]

/-- Witness for C10 at a concrete unknown engine id. -/
theorem streaming_defaults_blocking_rejects_witness :
    streamDispatch "eleven" = .kokoroFast ∧
    (speak busyGlobals "eleven").2 =
      .error ("Unknown TTS engine: " ++ "eleven") :=
  ⟨streaming_defaults_blocking_rejects.1 "eleven" (by decide),
   streaming_defaults_blocking_rejects.2 busyGlobals "eleven" (by decide)⟩

/-- Helper for C3: with no stop observed and an all-successful backend, the
worker run is exactly the concatenation of per-task success traces, in
enqueue order. -/
theorem runWorker_all_ok
    (backendRun : StreamBackend → GenerationTask → Except String String)
    (produced : GenerationTask → String) :
    ∀ (tasks : List GenerationTask),
      (∀ t ∈ tasks, workerGenerate backendRun t = .ok (produced t)) →
      runWorker backendRun (tasks.map fun t => (t, false, false)) =
        tasks.flatMap (successTrace produced) := by
  intro tasks
  induction tasks with
  | nil => intro _; rfl
  | cons a rest ih =>
    intro hl
    have ha := hl a (by simp)
    simp only [List.map_cons, runWorker, List.flatMap_cons]
    rw [ih (fun x hx => hl x (by simp [hx]))]
    simp [processTask, ha, successTrace]

/-- C3: for any sequence of requests enqueued with no intervening stop, the
sequential drain loop — which by construction receives and fully processes
one request before the next — generates and hands to playback exactly one
artifact per request, in exactly enqueue order: the whole trace is the
in-order concatenation of the per-request traces, and the playback
hand-offs equal the in-order list of generated artifacts. -/
theorem worker_plays_in_enqueue_order
    (backendRun : StreamBackend → GenerationTask → Except String String)
    (produced : GenerationTask → String) (tasks : List GenerationTask)
    (h : ∀ t ∈ tasks, workerGenerate backendRun t = .ok (produced t)) :
    runWorker backendRun (tasks.map fun t => (t, false, false)) =
      tasks.flatMap (successTrace produced) ∧
    playedPaths (runWorker backendRun (tasks.map fun t => (t, false, false))) =
      tasks.map produced := by
  refine ⟨runWorker_all_ok backendRun produced tasks h, ?_⟩
  rw [runWorker_all_ok backendRun produced tasks h]
  clear h
  induction tasks with
  | nil => rfl
  | cons a rest ih =>
    rw [List.flatMap_cons, List.map_cons]
    unfold playedPaths at ih ⊢
    rw [List.filterMap_append, ih]
    rfl

/-- Witness for C3 at three concrete requests and a concrete backend. -/
theorem worker_plays_in_enqueue_order_witness :
    runWorker backendOk
        ([sampleTask, sampleTask2, sampleTask3].map fun t => (t, false, false)) =
      [sampleTask, sampleTask2, sampleTask3].flatMap
        (successTrace fun t => "/tmp/" ++ t.text ++ ".wav") ∧
    playedPaths (runWorker backendOk
        ([sampleTask, sampleTask2, sampleTask3].map fun t => (t, false, false))) =
      [sampleTask, sampleTask2, sampleTask3].map fun t => "/tmp/" ++ t.text ++ ".wav" :=
  worker_plays_in_enqueue_order backendOk (fun t => "/tmp/" ++ t.text ++ ".wav")
    [sampleTask, sampleTask2, sampleTask3]
    (by
      intro t ht
      simp only [List.mem_cons, List.not_mem_nil, or_false] at ht
      rcases ht with rfl | rfl | rfl <;> rfl)

/-- Distinct decimal digits render to distinct characters. -/
theorem digitChar_inj_lt_ten :
    ∀ a < 10, ∀ b < 10, Nat.digitChar a = Nat.digitChar b → a = b := by decide

/-- No decimal digit renders to the dash separator. -/
theorem digitChar_ne_dash : ∀ d < 10, Nat.digitChar d ≠ '-' := by decide

/-- Mapping `Nat.digitChar` over lists of decimal digits is injective. -/
theorem map_digitChar_inj :
    ∀ (l₁ l₂ : List Nat), (∀ d ∈ l₁, d < 10) → (∀ d ∈ l₂, d < 10) →
      l₁.map Nat.digitChar = l₂.map Nat.digitChar → l₁ = l₂ := by
  intro l₁
  induction l₁ with
  | nil =>
    intro l₂ _ _ h
    cases l₂ with
    | nil => rfl
    | cons b t₂ => simp at h
  | cons a t ih =>
    intro l₂ h₁ h₂ h
    cases l₂ with
    | nil => simp at h
    | cons b t₂ =>
      simp only [List.map_cons, List.cons.injEq] at h
      have ha : a < 10 := h₁ a (by simp)
      have hb : b < 10 := h₂ b (by simp)
      have hab : a = b := digitChar_inj_lt_ten a ha b hb h.1
      subst hab
      have ht := ih t₂ (fun d hd => h₁ d (by simp [hd]))
        (fun d hd => h₂ d (by simp [hd])) h.2
      rw [ht]

/-- Strings with equal character data are equal. -/
theorem string_data_inj {a b : String} (h : a.data = b.data) : a = b := by
  cases a; cases b; exact congrArg String.mk h

/-- Character data of a string concatenation. -/
theorem strData_append (s t : String) : (s ++ t).data = s.data ++ t.data := rfl

/-- Decimal rendering is injective. -/
theorem decimalString_inj : Function.Injective decimalString := by
  intro m n h
  unfold decimalString at h
  by_cases hm : m = 0 <;> by_cases hn : n = 0
  · rw [hm, hn]
  · exfalso
    rw [if_pos hm, if_neg hn] at h
    have hdata : ('0' :: [] : List Char) =
        ((Nat.digits 10 n).map Nat.digitChar).reverse := congrArg String.data h
    have hm2 : (Nat.digits 10 n).map Nat.digitChar = ['0'] := by
      have := congrArg List.reverse hdata
      simpa using this.symm
    cases hdig : Nat.digits 10 n with
    | nil => rw [hdig] at hm2; simp at hm2
    | cons d tl =>
      rw [hdig] at hm2
      cases tl with
      | nil =>
        simp only [List.map_cons, List.map_nil, List.cons.injEq, and_true] at hm2
        have hdlt : d < 10 :=
          Nat.digits_lt_base (by norm_num) (by rw [hdig]; exact List.mem_cons_self d [])
        have hd0 : d = 0 :=
          digitChar_inj_lt_ten d hdlt 0 (by norm_num) (by rw [hm2]; rfl)
        have h0 : Nat.digits 10 n = [0] := by rw [hdig, hd0]
        have hn2 := Nat.ofDigits_digits 10 n
        rw [h0] at hn2
        simp [Nat.ofDigits] at hn2
        exact hn hn2.symm
      | cons d2 tl2 => simp at hm2
  · exfalso
    rw [if_neg hm, if_pos hn] at h
    have hdata : ((Nat.digits 10 m).map Nat.digitChar).reverse =
        ('0' :: [] : List Char) := congrArg String.data h
    have hm2 : (Nat.digits 10 m).map Nat.digitChar = ['0'] := by
      have := congrArg List.reverse hdata
      simpa using this
    cases hdig : Nat.digits 10 m with
    | nil => rw [hdig] at hm2; simp at hm2
    | cons d tl =>
      rw [hdig] at hm2
      cases tl with
      | nil =>
        simp only [List.map_cons, List.map_nil, List.cons.injEq, and_true] at hm2
        have hdlt : d < 10 :=
          Nat.digits_lt_base (by norm_num) (by rw [hdig]; exact List.mem_cons_self d [])
        have hd0 : d = 0 :=
          digitChar_inj_lt_ten d hdlt 0 (by norm_num) (by rw [hm2]; rfl)
        have h0 : Nat.digits 10 m = [0] := by rw [hdig, hd0]
        have hm3 := Nat.ofDigits_digits 10 m
        rw [h0] at hm3
        simp [Nat.ofDigits] at hm3
        exact hm hm3.symm
      | cons d2 tl2 => simp at hm2
  · rw [if_neg hm, if_neg hn] at h
    have h2 : (Nat.digits 10 m).map Nat.digitChar =
        (Nat.digits 10 n).map Nat.digitChar := by
      have hdata : ((Nat.digits 10 m).map Nat.digitChar).reverse =
          ((Nat.digits 10 n).map Nat.digitChar).reverse := congrArg String.data h
      have := congrArg List.reverse hdata
      simpa using this
    have h3 : Nat.digits 10 m = Nat.digits 10 n :=
      map_digitChar_inj _ _ (fun d hd => Nat.digits_lt_base (by norm_num) hd)
        (fun d hd => Nat.digits_lt_base (by norm_num) hd) h2
    exact Nat.digits.injective 10 h3

/-- The decimal rendering of a natural number contains no dash. -/
theorem dash_not_mem_decimalString (n : Nat) : '-' ∉ (decimalString n).data := by
  unfold decimalString
  by_cases hn : n = 0
  · rw [if_pos hn]
    decide
  · rw [if_neg hn]
    show '-' ∉ ((Nat.digits 10 n).map Nat.digitChar).reverse
    intro hmem
    rw [List.mem_reverse] at hmem
    obtain ⟨d, hd, hchar⟩ := List.mem_map.mp hmem
    exact digitChar_ne_dash d (Nat.digits_lt_base (by norm_num) hd) hchar

/-- Splitting a character list at a separator occurring in neither part is
unambiguous. -/
theorem splitAtSep {c : Char} :
    ∀ (a₁ : List Char) {b₁ : List Char} (a₂ : List Char) {b₂ : List Char},
      c ∉ a₁ → c ∉ a₂ → a₁ ++ c :: b₁ = a₂ ++ c :: b₂ → a₁ = a₂ ∧ b₁ = b₂ := by
  intro a₁
  induction a₁ with
  | nil =>
    intro b₁ a₂ b₂ _ h₂ h
    cases a₂ with
    | nil => simpa using h
    | cons y t₂ =>
      exfalso
      simp only [List.nil_append, List.cons_append, List.cons.injEq] at h
      exact h₂ (by rw [h.1]; exact List.mem_cons_self y t₂)
  | cons x t ih =>
    intro b₁ a₂ b₂ h₁ h₂ h
    cases a₂ with
    | nil =>
      exfalso
      simp only [List.nil_append, List.cons_append, List.cons.injEq] at h
      exact h₁ (by rw [← h.1]; exact List.mem_cons_self x t)
    | cons y t₂ =>
      simp only [List.cons_append, List.cons.injEq] at h
      obtain ⟨rfl, hrest⟩ := h
      have hr := ih t₂ (fun hc => h₁ (List.mem_cons_of_mem x hc))
        (fun hc => h₂ (List.mem_cons_of_mem x hc)) hrest
      exact ⟨by rw [hr.1], hr.2⟩

/-- The streaming piper temp path determines the process id and the
timestamp: the format embeds both, separated by a dash that occurs in
neither rendered number. -/
theorem generate_piper_audio_tempFile_inj (pid₁ n₁ pid₂ n₂ : Nat)
    (h : generate_piper_audio_tempFile pid₁ n₁ =
      generate_piper_audio_tempFile pid₂ n₂) :
    pid₁ = pid₂ ∧ n₁ = n₂ := by
  unfold generate_piper_audio_tempFile at h
  have hdash : ("-" : String).data = ['-'] := rfl
  have hd := congrArg String.data h
  simp only [strData_append, hdash, List.append_assoc, List.singleton_append] at hd
  have hmid := List.append_cancel_left hd
  have hsplit := splitAtSep (decimalString pid₁).data (decimalString pid₂).data
    (dash_not_mem_decimalString pid₁) (dash_not_mem_decimalString pid₂) hmid
  refine ⟨decimalString_inj (string_data_inj hsplit.1), ?_⟩
  have htail := List.append_cancel_right hsplit.2
  exact decimalString_inj (string_data_inj htail)

/-- C6 counterexample: two distinct requests in the same process — distinct
high-resolution timestamps 5 and 99 — are given the very same temp path by
`speak_piper`, whose format interpolates only the process id. -/
theorem blocking_temp_path_reused :
    speak_piper_tempFile 123 5 = speak_piper_tempFile 123 99 ∧ (5 : Nat) ≠ 99 :=
  ⟨rfl, by decide⟩

/-- C6 (amended): the streaming generator `generate_piper_audio` builds the
temp path from the process id and the nanosecond timestamp and the mapping
is collision-free — equal paths force equal (pid, timestamp) pairs — while
the blocking `speak_piper`, `speak_edge` and `speak_kokoro` interpolate
only the process id, so within a process their paths are identical across
requests with different timestamps. -/
theorem temp_path_uniqueness :
    (∀ pid₁ n₁ pid₂ n₂ : Nat,
      generate_piper_audio_tempFile pid₁ n₁ = generate_piper_audio_tempFile pid₂ n₂ →
      pid₁ = pid₂ ∧ n₁ = n₂) ∧
    (∀ pid n₁ n₂ : Nat,
      speak_piper_tempFile pid n₁ = speak_piper_tempFile pid n₂ ∧
      speak_edge_tempFile pid n₁ = speak_edge_tempFile pid n₂ ∧
      speak_kokoro_tempFile pid n₁ = speak_kokoro_tempFile pid n₂) :=
  ⟨fun pid₁ n₁ pid₂ n₂ h => generate_piper_audio_tempFile_inj pid₁ n₁ pid₂ n₂ h,
   fun _ _ _ => ⟨rfl, rfl, rfl⟩⟩

/-- Witness for the amended C6 at concrete process ids and timestamps. -/
theorem temp_path_uniqueness_witness :
    ((123 : Nat) = 123 ∧ (5 : Nat) = 5) ∧
    (speak_piper_tempFile 7 1 = speak_piper_tempFile 7 2 ∧
     speak_edge_tempFile 7 1 = speak_edge_tempFile 7 2 ∧
     speak_kokoro_tempFile 7 1 = speak_kokoro_tempFile 7 2) :=
  ⟨temp_path_uniqueness.1 123 5 123 5 rfl, temp_path_uniqueness.2 7 1 2⟩

end OpencodeTalk
